import Mathlib

/-!
Verification of the XDF → SET conversion core (`pipelines/01_xdf_to_set/xdf_to_set.py`).

The Python functions are shallowly embedded as executable Lean definitions:
* numpy float arrays become lists of rationals (`List ℚ`); exact rational
  arithmetic stands in for floating point, which is noted wherever a claim
  could be sensitive to rounding;
* numpy 2-D arrays become a `Mat` record carrying the shape and an entry
  function (only shapes are ever inspected by the properties below);
* `datetime64[ns]` values become integers counting nanoseconds, and the
  pandas second→nanosecond conversion is modelled by exact rounding;
* fallible Python code (functions that `raise`) returns `Except String`.
-/

namespace XdfToSet

/-- A numpy 2-D float array: shape plus entries (row, column).
Only shapes matter for the verified properties; entries are carried so the
data-transforming steps of the source can be translated faithfully. -/
structure Mat where
  rows : Nat
  cols : Nat
  entry : Nat → Nat → ℚ

/-- Python slice `m[i:j, :]` of the rows of a 2-D array. -/
def Mat.sliceRows (m : Mat) (i j : Nat) : Mat :=
  { rows := min (j - i) (m.rows - i), cols := m.cols,
    entry := fun r c => m.entry (r + i) c }

/-- Python slice `m[:n, :]`. -/
def Mat.takeRows (m : Mat) (n : Nat) : Mat :=
  { rows := min n m.rows, cols := m.cols, entry := m.entry }

/-- Python slice `m[:, :n]`. -/
def Mat.sliceCols (m : Mat) (n : Nat) : Mat :=
  { rows := m.rows, cols := min n m.cols, entry := m.entry }

/-- numpy `m.T`. -/
def Mat.transpose (m : Mat) : Mat :=
  { rows := m.cols, cols := m.rows, entry := fun r c => m.entry c r }

/-- numpy elementwise `m * k`. -/
def Mat.scale (m : Mat) (k : ℚ) : Mat :=
  { rows := m.rows, cols := m.cols, entry := fun r c => k * m.entry r c }

/-- numpy `np.concatenate([a, b], axis=1)` (source `merge_streams`, step
`merged_data`). -/
def Mat.hconcat (a b : Mat) : Mat :=
  { rows := a.rows, cols := a.cols + b.cols,
    entry := fun r c => if c < a.cols then a.entry r c else b.entry r (c - a.cols) }

/-- The dictionary produced by `extract_single_stream`:
`{"data": ..., "timestamps": ..., "srate": ..., "name": ...}`. -/
structure EEGStream where
  name : String
  srate : ℚ
  timestamps : List ℚ
  data : Mat

/-- One parsed LSL stream as returned by `pyxdf.load_xdf`: the metadata
fields read by the source (`info.type[0]`, `info.name[0]`,
`info.nominal_srate[0]`) plus the sample matrix and timestamp vector. -/
structure RawStream where
  type : String
  name : String
  nominal_srate : ℚ
  time_series : Mat
  time_stamps : List ℚ

/-- `np.searchsorted(ts, v)` (side `left`): on a sorted vector, the leftmost
insertion index, i.e. the number of elements strictly below `v`.  The source
only calls it on sorted timestamp vectors, for which this count is exactly
the index numpy's binary search returns. -/
def searchsorted (ts : List ℚ) (v : ℚ) : Nat :=
  (ts.takeWhile (fun t => decide (t < v))).length

/-- Python list slice `l[i:j]`. -/
def pySlice (l : List α) (i j : Nat) : List α :=
  (l.drop i).take (j - i)

/-- Source `align_streams` (lines 181–234): trim two streams to their
timestamp overlap and truncate both to the common minimum length.
Indexing `ts[0]` / `ts[-1]` on an empty vector is a Python `IndexError`,
modelled as the error branch. -/
def align_streams (streamA streamB : EEGStream) :
    Except String (EEGStream × EEGStream) :=
  match streamA.timestamps.head?, streamA.timestamps.getLast?,
        streamB.timestamps.head?, streamB.timestamps.getLast? with
  | some a0, some aLast, some b0, some bLast =>
    let start := max a0 b0
    let stop := min aLast bLast
    if stop ≤ start then .error "Streams do not overlap in time."
    else
      let idxA_start := searchsorted streamA.timestamps start
      let idxA_end := searchsorted streamA.timestamps stop
      let idxB_start := searchsorted streamB.timestamps start
      let idxB_end := searchsorted streamB.timestamps stop
      let newA : EEGStream :=
        { name := streamA.name, srate := streamA.srate,
          timestamps := pySlice streamA.timestamps idxA_start idxA_end,
          data := streamA.data.sliceRows idxA_start idxA_end }
      let newB : EEGStream :=
        { name := streamB.name, srate := streamB.srate,
          timestamps := pySlice streamB.timestamps idxB_start idxB_end,
          data := streamB.data.sliceRows idxB_start idxB_end }
      let n := min newA.data.rows newB.data.rows
      .ok ({ newA with timestamps := newA.timestamps.take n,
                       data := newA.data.takeRows n },
           { newB with timestamps := newB.timestamps.take n,
                       data := newB.data.takeRows n })
  | _, _, _, _ => .error "IndexError: empty timestamp vector"

/-- Source `strip_aux_channels` (lines 236–254): demand 66 raw channels,
keep the first 64. -/
def strip_aux_channels (stream : EEGStream) : Except String EEGStream :=
  if stream.data.cols != 66 then
    .error "Expected 66 channels before stripping"
  else
    .ok { stream with data := stream.data.sliceCols 64 }

/-- Source `merge_streams` (lines 256–284): concatenate two aligned
64-channel streams along the channel axis. -/
def merge_streams (streamA streamB : EEGStream) : Except String EEGStream :=
  if streamA.data.rows != streamB.data.rows then
    .error "Stream lengths differ"
  else if streamA.data.cols != 64 || streamB.data.cols != 64 then
    .error "Both streams must have 64 channels before merging."
  else
    .ok { name := streamA.name ++ "__" ++ streamB.name,
          srate := streamA.srate,
          timestamps := streamA.timestamps,
          data := streamA.data.hconcat streamB.data }

/-- Source `find_eeg_streams` (lines 125–143): keep streams whose
`info.type[0]` is `"EEG"`; zero streams or more than two is a fatal error. -/
def find_eeg_streams (xdf_streams : List RawStream) :
    Except String (List RawStream) :=
  let eeg_streams := xdf_streams.filter (fun s => s.type == "EEG")
  if eeg_streams.length == 0 then
    .error "No EEG streams found in the XDF file."
  else if eeg_streams.length > 2 then
    .error "Expected at most 2 EEG streams."
  else
    .ok eeg_streams

/-- Python tuple unpacking `eegA, eegB = eeg_streams` (source
`load_and_merge`, line 69): a `ValueError` unless the list has exactly two
elements. -/
def unpack2 (l : List α) : Except String (α × α) :=
  match l with
  | [a, b] => .ok (a, b)
  | _ => .error "ValueError: expected exactly two values to unpack"

/-- Source `extract_single_stream` (lines 147–179): read the sample matrix
(scaled by 1000, mV → µV), timestamps, rate and name of one raw stream. -/
def extract_single_stream (stream : RawStream) : EEGStream :=
  { name := stream.name,
    srate := stream.nominal_srate,
    timestamps := stream.time_stamps,
    data := stream.time_series.scale 1000 }

/-- Source `load_and_merge` (lines 47–85), starting from the parsed stream
list (the file loading in `load_xdf` is I/O and not modelled): find the EEG
streams, destructure into exactly two, extract, align, strip, merge. -/
def load_and_merge (streams : List RawStream) : Except String EEGStream := do
  let eeg_streams ← find_eeg_streams streams
  let (eegA, eegB) ← unpack2 eeg_streams
  let A := extract_single_stream eegA
  let B := extract_single_stream eegB
  let (A_aligned, B_aligned) ← align_streams A B
  let A_clean ← strip_aux_channels A_aligned
  let B_clean ← strip_aux_channels B_aligned
  merge_streams A_clean B_clean

end XdfToSet

namespace XdfToSet

/-- C6: For every pair of streams with overlapping timestamp vectors (and
with the stream invariant that the timestamp vector is one entry per data
row), `align_streams` returns two streams whose data row counts and
timestamp lengths all coincide, and that common count is at most the
minimum of the two input sample counts. -/
theorem C6_align_streams_length_invariant
    (A B A' B' : EEGStream)
    (hA : A.timestamps.length = A.data.rows)
    (hB : B.timestamps.length = B.data.rows)
    (h : align_streams A B = Except.ok (A', B')) :
    A'.data.rows = B'.data.rows ∧
    A'.timestamps.length = A'.data.rows ∧
    B'.timestamps.length = B'.data.rows ∧
    A'.data.rows ≤ min A.data.rows B.data.rows := by
  unfold align_streams at h
  split at h
  case h_2 => exact absurd h (by simp)
  case h_1 a0 aLast b0 bLast ha0 haL hb0 hbL =>
    dsimp only at h
    split at h
    · exact absurd h (by simp)
    · injection h with h
      injection h with h1 h2
      subst h1; subst h2
      simp only [Mat.sliceRows, Mat.takeRows, pySlice,
        List.length_take, List.length_drop, hA, hB, and_true, true_and]
      omega

/-- A concrete successful run of `align_streams`, used by the C6 witness. -/
def c6A : EEGStream :=
  { name := "A", srate := 500, timestamps := [0, 1, 2],
    data := { rows := 3, cols := 66, entry := fun _ _ => 0 } }

/-- Second stream of the concrete C6 run. -/
def c6B : EEGStream :=
  { name := "B", srate := 500, timestamps := [0, 1, 2],
    data := { rows := 3, cols := 66, entry := fun _ _ => 1 } }

/-- The pair `align_streams c6A c6B` evaluates to. -/
def c6pair : EEGStream × EEGStream :=
  ((align_streams c6A c6B).toOption).getD (c6A, c6B)

/-- Witness for C6: the invariant, instantiated on a concrete aligned pair. -/
theorem C6_align_streams_length_invariant_witness :
    c6pair.1.data.rows = c6pair.2.data.rows ∧
    c6pair.1.timestamps.length = c6pair.1.data.rows ∧
    c6pair.2.timestamps.length = c6pair.2.data.rows ∧
    c6pair.1.data.rows ≤ min c6A.data.rows c6B.data.rows :=
  C6_align_streams_length_invariant c6A c6B c6pair.1 c6pair.2 rfl rfl rfl

/-- C7: two streams whose timestamp ranges do not intersect (the larger of
the two first timestamps is at least the smaller of the two last
timestamps) make `align_streams` fail with the overlap error; no trimmed
pair is returned. -/
theorem C7_align_streams_nonoverlap
    (A B : EEGStream) (a0 aLast b0 bLast : ℚ)
    (ha0 : A.timestamps.head? = some a0)
    (haL : A.timestamps.getLast? = some aLast)
    (hb0 : B.timestamps.head? = some b0)
    (hbL : B.timestamps.getLast? = some bLast)
    (hno : min aLast bLast ≤ max a0 b0) :
    align_streams A B = Except.error "Streams do not overlap in time." := by
  unfold align_streams
  rw [ha0, haL, hb0, hbL]
  simp only [if_pos hno]

/-- First stream of the concrete non-overlapping pair for C7. -/
def c7A : EEGStream :=
  { name := "A", srate := 500, timestamps := [0, 1],
    data := { rows := 2, cols := 66, entry := fun _ _ => 0 } }

/-- Second stream of the concrete non-overlapping pair for C7. -/
def c7B : EEGStream :=
  { name := "B", srate := 500, timestamps := [2, 3],
    data := { rows := 2, cols := 66, entry := fun _ _ => 0 } }

/-- Witness for C7: the disjoint concrete pair is rejected. -/
theorem C7_align_streams_nonoverlap_witness :
    align_streams c7A c7B = Except.error "Streams do not overlap in time." :=
  C7_align_streams_nonoverlap c7A c7B 0 1 2 3 rfl rfl rfl rfl (by norm_num)

/-- A single otherwise-valid raw EEG stream (66 channels, sorted overlapping
timestamps), used for the C4 analysis. -/
def c4sA : RawStream :=
  { type := "EEG", name := "A", nominal_srate := 500,
    time_series := { rows := 2, cols := 66, entry := fun _ _ => 0 },
    time_stamps := [0, 1] }

/-- A second valid raw EEG stream, overlapping `c4sA`. -/
def c4sB : RawStream :=
  { type := "EEG", name := "B", nominal_srate := 500,
    time_series := { rows := 2, cols := 66, entry := fun _ _ => 1 },
    time_stamps := [0, 1] }

/-- Counterexample for C4: a file with exactly ONE signal stream passes the
stream-count validation of `find_eeg_streams`, yet `load_and_merge` does
not process it without error — the two-variable tuple unpacking aborts. -/
theorem C4_one_stream_counterexample :
    (find_eeg_streams [c4sA]).isOk = true ∧
    (load_and_merge [c4sA]).isOk = false :=
  ⟨rfl, rfl⟩

/-- C4 (amended): zero or more than two signal-type streams abort in
`find_eeg_streams`; exactly one stream passes that validation but still
aborts `load_and_merge` (at the two-stream unpacking); so a stream list is
processed without error only when it holds exactly two EEG streams, and a
valid two-stream file is indeed converted successfully. -/
theorem C4_stream_count_amended :
    (∀ streams : List RawStream,
        (streams.filter (fun s => s.type == "EEG")).length ≠ 2 →
        (load_and_merge streams).isOk = false)
    ∧ (load_and_merge [c4sA, c4sB]).isOk = true := by
  constructor
  · intro streams hne
    unfold load_and_merge find_eeg_streams
    by_cases h0 : (streams.filter (fun s => s.type == "EEG")).length = 0
    · simp only [h0]
      rfl
    · by_cases h2 : (streams.filter (fun s => s.type == "EEG")).length > 2
      · simp [h0, h2]
        rfl
      · have h1 : (streams.filter (fun s => s.type == "EEG")).length = 1 := by
          omega
        obtain ⟨a, ha⟩ := List.length_eq_one.mp h1
        simp [ha]
        rfl
  · rfl

/-- Witness for C4 (amended): a one-stream list hits the error path. -/
theorem C4_stream_count_amended_witness :
    (load_and_merge [c4sA]).isOk = false :=
  C4_stream_count_amended.1 [c4sA] (by decide)

/-- The container assembled by the source `build_eeglab_struct`
(lines 286–357). -/
structure EEGLab where
  nbchan : Nat
  trials : Nat
  pnts : Nat
  srate : ℚ
  xmin : ℚ
  xmax : ℚ
  times : List ℚ
  data : Mat
  chanlocs : List String

/-- Source `build_eeglab_struct` (lines 286–357): transpose to
channel-major, build the time axis, attach channel labels.

Modelling notes: the workspace-root search and the two YAML loads are file
I/O, so the channel-name list read from `config/eeg_metadata.yaml` is passed
as an argument and the EEGLAB template (default fields only) is omitted;
the `astype(np.float32)` casts are not modelled — arithmetic is exact — and
the inputs used for the claims below have exactly float32-representable
values.  The `times` line mirrors source line 308 including its two
`* np.float32(1000)` factors. -/
def build_eeglab_struct (merged : EEGStream) (channel_names : List String) :
    Except String EEGLab :=
  let data_ch_by_time := merged.data.transpose
  let nbchan := data_ch_by_time.rows
  let pnts := data_ch_by_time.cols
  let times := (List.range pnts).map
    (fun i : ℕ => (i : ℚ) / merged.srate * 1000 * 1000)
  if channel_names.length != nbchan then
    .error "channel name count mismatch"
  else
    .ok { nbchan := nbchan, trials := 1, pnts := pnts, srate := merged.srate,
          xmin := 0, xmax := ((pnts : ℚ) - 1) / merged.srate,
          times := times, data := data_ch_by_time,
          chanlocs := channel_names }

/-- A merged stream with two samples at 500 Hz and one channel, the failing
input for C1. -/
def c1merged : EEGStream :=
  { name := "demo", srate := 500, timestamps := [0, 1/500],
    data := { rows := 2, cols := 1, entry := fun _ _ => 0 } }

/-- C1 (code bug): on a 2-sample 500 Hz input the source's time axis is
`[0, 2000]` — seconds times a duplicated factor of one thousand squared,
i.e. microseconds — whereas sample 1 at 500 Hz is 2 milliseconds, so the
axis is not `arange(n) / rate * 1000`; the code contradicts its own
comment that the axis is in milliseconds. -/
theorem C1_times_microseconds_bug :
    (build_eeglab_struct c1merged ["Cz"]).toOption.map EEGLab.times =
      some [0, 2000] ∧
    (build_eeglab_struct c1merged ["Cz"]).toOption.map EEGLab.times ≠
      some [0, (1 : ℚ) / 500 * 1000] := by
  have h : (build_eeglab_struct c1merged ["Cz"]).toOption.map EEGLab.times =
      some (([0, 1] : List ℕ).map
        (fun i : ℕ => (i : ℚ) / 500 * 1000 * 1000)) := rfl
  rw [h]
  norm_num

/-- A filter value in `config/conditions.yaml`: a scalar (tested by
equality) or a list of allowed values (tested by membership). -/
inductive FilterVal where
  | scalar : String → FilterVal
  | values : List String → FilterVal

/-- The metadata log: the dataframe's column list plus one association list
of (column, cell) per row.  Cells are strings (the source compares them
against YAML string scalars). -/
structure DF where
  columns : List String
  rows : List (List (String × String))

/-- Cell access `df[col]` within one row. -/
def dfGet (row : List (String × String)) (c : String) : Option String :=
  (row.find? (fun p => p.1 == c)).map (fun p => p.2)

/-- Python `str.strip()` followed by `re.sub(r"\s+", " ", ...)`: trim and
collapse runs of whitespace to single spaces (source lines 654–660). -/
def normalizeWs (s : String) : String :=
  String.intercalate " "
    ((s.split (fun c => c == ' ' || c == '\t' || c == '\n' || c == '\r'))
      |>.filter (fun t => !t.isEmpty))

/-- The five columns whitespace-normalized by
`add_exposure_type_from_config` (source lines 647–653). -/
def cols_to_norm : List String :=
  ["Unity Scene", "Study_Phase", "Shown_Scene", "Arithmetic_Task",
   "Participant_State"]

/-- The normalization pass of `add_exposure_type_from_config`: each listed
column that exists in the dataframe has its values trimmed and
whitespace-collapsed. -/
def normalizeDF (df : DF) : DF :=
  { df with rows := df.rows.map (fun row => row.map (fun cell =>
      if cols_to_norm.contains cell.1 && df.columns.contains cell.1 then
        (cell.1, normalizeWs cell.2)
      else cell)) }

/-- The boolean mask of one condition label at one row (source lines
677–692): AND over the label's filters; a filter whose column is not in
the dataframe is skipped (`continue`); a scalar filter is an equality
test, a list filter a membership test.  A missing cell compares unequal
(pandas `NaN == v` and `NaN.isin` are false). -/
def evalFilters (columns : List String)
    (filters : List (String × FilterVal))
    (row : List (String × String)) : Bool :=
  filters.all (fun f =>
    if columns.contains f.1 then
      match f.2 with
      | .scalar s => dfGet row f.1 == some s
      | .values l => match dfGet row f.1 with
        | some x => l.contains x
        | none => false
    else true)

/-- The per-row outcome of `np.select(condition_masks, label_order,
default="no exposure")` (source lines 703–707): the first label in config
order whose mask is true at this row, else the default. -/
def rowLabel (columns : List String)
    (conds : List (String × List (String × FilterVal)))
    (row : List (String × String)) : String :=
  match conds.find? (fun lc => evalFilters columns lc.2 row) with
  | some lc => lc.1
  | none => "no exposure"

/-- Source `add_exposure_type_from_config` (lines 624–709): normalize the
key columns, then assign one condition label per row.  The YAML load is
I/O, so the ordered `conditions` mapping is passed as an association list;
an empty mapping is the source's fatal "no conditions section" error.  The
returned list is the new `exposure_type` column.  (The per-label match
counts stored in `df.attrs` are logging-only and not modelled.) -/
def add_exposure_type_from_config (df : DF)
    (conds : List (String × List (String × FilterVal))) :
    Except String (List String) :=
  if conds.isEmpty then
    .error "No conditions section found"
  else
    .ok ((normalizeDF df).rows.map (rowLabel df.columns conds))

/-- A one-column, one-row log for the C3 analysis. -/
def c3df : DF := { columns := ["A"], rows := [[("A", "x")]] }

/-- A config whose single label filters only on a column absent from
`c3df`. -/
def c3conds : List (String × List (String × FilterVal)) :=
  [("L", [("Missing", FilterVal.scalar "v")])]

/-- Counterexample for C3: the label "L" filters on the absent column
"Missing", yet the row IS assigned "L" — the absent-column filter is
skipped, it does not make the label unmatchable. -/
theorem C3_absent_column_counterexample :
    c3df.columns.contains "Missing" = false ∧
    add_exposure_type_from_config c3df c3conds = Except.ok ["L"] := by
  constructor
  · rfl
  · rfl

/-- C3 (amended): a filter whose column is absent from the log is skipped,
so the label matches exactly the rows satisfying its remaining filters
(non-fatally).  In particular, if every filter of some config label names
an absent column, that label's mask is true on every row, and consequently
every row of the log is assigned some label of the config — never the
default. -/
theorem C3_absent_column_filters_skipped
    (df : DF) (conds : List (String × List (String × FilterVal)))
    (label : String) (fs : List (String × FilterVal))
    (hmem : (label, fs) ∈ conds)
    (habs : ∀ f ∈ fs, df.columns.contains f.1 = false) :
    (∀ row, evalFilters df.columns fs row = true) ∧
    (∀ out, add_exposure_type_from_config df conds = Except.ok out →
      ∀ l ∈ out, l ∈ conds.map Prod.fst) := by
  have hall : ∀ row, evalFilters df.columns fs row = true := by
    intro row
    unfold evalFilters
    rw [List.all_eq_true]
    intro f hf
    rw [habs f hf]
    simp
  refine ⟨hall, ?_⟩
  intro out hout l hl
  unfold add_exposure_type_from_config at hout
  split at hout
  · exact absurd hout (by simp)
  · injection hout with hout
    subst hout
    obtain ⟨row, _, hrow⟩ := List.mem_map.mp hl
    subst hrow
    unfold rowLabel
    have hsome : (conds.find? (fun lc =>
        evalFilters df.columns lc.2 row)).isSome := by
      rw [List.find?_isSome]
      exact ⟨(label, fs), hmem, hall row⟩
    obtain ⟨lc, hlc⟩ := Option.isSome_iff_exists.mp hsome
    rw [hlc]
    exact List.mem_map.mpr ⟨lc, List.mem_of_find?_eq_some hlc, rfl⟩

/-- Witness for C3 (amended), instantiated on the concrete log and config
of the counterexample: the all-absent filter set matches the concrete row,
and the output column contains only config labels. -/
theorem C3_absent_column_filters_skipped_witness :
    evalFilters c3df.columns [("Missing", FilterVal.scalar "v")]
      [("A", "x")] = true :=
  (C3_absent_column_filters_skipped c3df c3conds "L"
    [("Missing", FilterVal.scalar "v")]
    (by simp [c3conds]) (by decide)).1 [("A", "x")]

/-- C5: condition labelling is first-match-wins in config order with the
fixed default: if the label at position `i` matches the row and no earlier
label does, the row is assigned label `i` (so a row matching two
overlapping labels receives the earlier one); if no label matches, the row
is assigned "no exposure". -/
theorem C5_first_match_wins
    (columns : List String)
    (conds : List (String × List (String × FilterVal)))
    (row : List (String × String)) :
    (∀ i l fs, conds.get? i = some (l, fs) →
      evalFilters columns fs row = true →
      (∀ j l2 fs2, j < i → conds.get? j = some (l2, fs2) →
        evalFilters columns fs2 row = false) →
      rowLabel columns conds row = l) ∧
    ((∀ lc ∈ conds, evalFilters columns lc.2 row = false) →
      rowLabel columns conds row = "no exposure") := by
  constructor
  · intro i l fs hget hmatch hearlier
    unfold rowLabel
    have hfind : conds.find? (fun lc => evalFilters columns lc.2 row)
        = some (l, fs) := by
      induction conds generalizing i with
      | nil => simp at hget
      | cons hd tl ih =>
        cases i with
        | zero =>
          injection hget with hget
          subst hget
          rw [List.find?_cons_of_pos _ (by simpa using hmatch)]
        | succ k =>
          have hhd : evalFilters columns hd.2 row = false :=
            hearlier 0 hd.1 hd.2 (Nat.succ_pos k) (by simp)
          rw [List.find?_cons_of_neg _ (by simp [hhd])]
          exact ih k hget
            (fun j l2 fs2 hj hg =>
              hearlier (j + 1) l2 fs2 (Nat.succ_lt_succ hj)
                (by simpa using hg))
    rw [hfind]
  · intro hnone
    unfold rowLabel
    rw [List.find?_eq_none.mpr (fun lc hlc => by simp [hnone lc hlc])]

/-- Two overlapping labels sharing the same filter, for the C5 witness. -/
def c5conds : List (String × List (String × FilterVal)) :=
  [("L1", [("A", FilterVal.scalar "x")]),
   ("L2", [("A", FilterVal.scalar "x")])]

/-- Witness for C5: a concrete row matching both overlapping labels is
assigned the first one in config order. -/
theorem C5_first_match_wins_witness :
    rowLabel ["A"] c5conds [("A", "x")] = "L1" :=
  (C5_first_match_wins ["A"] c5conds [("A", "x")]).1 0 "L1"
    [("A", FilterVal.scalar "x")] rfl (by decide)
    (fun j _ _ hj _ => absurd hj (Nat.not_lt_zero j))

/-- Python's built-in `round` on an exact rational: round to the nearest
integer, ties to the even neighbour. -/
def pyRound (q : ℚ) : Int :=
  if q - ⌊q⌋ < 1/2 then ⌊q⌋
  else if 1/2 < q - ⌊q⌋ then ⌊q⌋ + 1
  else if ⌊q⌋ % 2 = 0 then ⌊q⌋ else ⌊q⌋ + 1

/-- Rounding is exact on values strictly within half a unit of an integer. -/
theorem pyRound_eq_of_abs_lt (q : ℚ) (m : ℤ) (h : |q - m| < 1/2) :
    pyRound q = m := by
  rw [abs_lt] at h
  obtain ⟨h1, h2⟩ := h
  by_cases hq : (m : ℚ) ≤ q
  · have hfl : ⌊q⌋ = m := Int.floor_eq_iff.mpr ⟨hq, by linarith⟩
    unfold pyRound
    rw [hfl, if_pos (by linarith)]
  · push_neg at hq
    have hfl : ⌊q⌋ = m - 1 :=
      Int.floor_eq_iff.mpr ⟨by push_cast; linarith, by push_cast; linarith⟩
    unfold pyRound
    rw [hfl, if_neg (by push_cast; linarith),
      if_pos (by push_cast; linarith)]
    omega

/-- The rounded value is within half a unit of the input. -/
theorem abs_pyRound_sub_le (q : ℚ) : |(pyRound q : ℚ) - q| ≤ 1/2 := by
  have h0 : (⌊q⌋ : ℚ) ≤ q := Int.floor_le q
  have h1 : q < ⌊q⌋ + 1 := Int.lt_floor_add_one q
  unfold pyRound
  split_ifs with ha hb hc
  · rw [abs_le]; constructor <;> linarith
  · push_cast
    rw [abs_le]; constructor <;> linarith
  · rw [abs_le]; constructor <;> linarith
  · push_cast
    rw [abs_le]; constructor <;> linarith

/-- Rounding preserves nonnegativity. -/
theorem pyRound_nonneg (q : ℚ) (h : 0 ≤ q) : 0 ≤ pyRound q := by
  have h0 : 0 ≤ ⌊q⌋ := Int.floor_nonneg.mpr h
  unfold pyRound
  split_ifs <;> omega

/-- Rounding a value at least one stays at least one. -/
theorem one_le_pyRound (q : ℚ) (h : 1 ≤ q) : 1 ≤ pyRound q := by
  have h0 : 1 ≤ ⌊q⌋ := Int.le_floor.mpr (by exact_mod_cast h)
  unfold pyRound
  split_ifs <;> omega

/-- The pandas second → `datetime64[ns]` / `timedelta64[ns]` conversion
(`pd.to_datetime(..., unit="s")`, `pd.to_timedelta(..., unit="s")`):
seconds scaled to nanoseconds and rounded to the integer grid.  Exact
rational arithmetic stands in for float64. -/
def secToNs (q : ℚ) : Int := pyRound (q * 1000000000)

/-- Zero seconds is zero nanoseconds. -/
theorem secToNs_zero : secToNs 0 = 0 :=
  pyRound_eq_of_abs_lt (0 * 1000000000) 0 (by norm_num)

/-- Source `align_timestamps` (lines 711–756): build the synthetic
per-sample EEG timestamps `eeg_first + arange(n)/srate`, compute the gap
to the metadata log's first timestamp, and subtract it.

`datetime64[ns]` values are integers counting nanoseconds.  The source's
check that the physio index has a datetime dtype is a typing concern that
holds by construction here; indexing the first element of an empty index
or timestamp vector is the error branch. -/
def align_timestamps (physio_index : List Int) (n_samples : Nat)
    (eeg_ts : List ℚ) (srate : ℚ) : Except String (List Int) :=
  match physio_index.head?, eeg_ts.head? with
  | some physio_first, some eeg_raw_first =>
    let eeg_first_dt := secToNs eeg_raw_first
    let eeg_dt := (List.range n_samples).map
      (fun i : ℕ => eeg_first_dt + secToNs ((i : ℚ) / srate))
    let gap := eeg_first_dt - physio_first
    .ok (eeg_dt.map (fun t => t - gap))
  | _, _ => .error "IndexError: empty index"

/-- Closed form of a successful `align_timestamps` run: the signal's raw
first timestamp cancels out of the gap subtraction. -/
theorem align_timestamps_ok (physio_index : List Int) (t0 : Int) (n : Nat)
    (eeg_ts : List ℚ) (srate : ℚ)
    (h0 : physio_index.head? = some t0) (he : eeg_ts ≠ []) :
    align_timestamps physio_index n eeg_ts srate
      = Except.ok ((List.range n).map
          (fun i : ℕ => t0 + secToNs ((i : ℚ) / srate))) := by
  unfold align_timestamps
  rw [h0]
  cases eeg_ts with
  | nil => exact absurd rfl he
  | cons e rest =>
    show Except.ok _ = _
    rw [Except.ok.injEq, List.map_map]
    apply List.map_congr_left
    intro i _
    show secToNs e + secToNs ((i : ℚ) / srate) - (secToNs e - t0)
      = t0 + secToNs ((i : ℚ) / srate)
    omega

/-- C10: the aligned axis is `metadata_first + arange(n)/rate` seconds
(on the nanosecond grid) — the signal's raw clock cancels out, so any
nonempty raw EEG timestamp vector yields the identical output. -/
theorem C10_align_timestamps_clock_independent
    (physio_index : List Int) (t0 : Int) (n : Nat)
    (eeg_ts : List ℚ) (srate : ℚ)
    (h0 : physio_index.head? = some t0) (he : eeg_ts ≠ []) :
    align_timestamps physio_index n eeg_ts srate
      = Except.ok ((List.range n).map
          (fun i : ℕ => t0 + secToNs ((i : ℚ) / srate)))
    ∧ ∀ eeg_ts2 : List ℚ, eeg_ts2 ≠ [] →
        align_timestamps physio_index n eeg_ts srate
          = align_timestamps physio_index n eeg_ts2 srate := by
  refine ⟨align_timestamps_ok physio_index t0 n eeg_ts srate h0 he, ?_⟩
  intro ts2 h2
  rw [align_timestamps_ok physio_index t0 n eeg_ts srate h0 he,
    align_timestamps_ok physio_index t0 n ts2 srate h0 h2]

/-- Witness for C10 on concrete inputs. -/
theorem C10_align_timestamps_clock_independent_witness :
    align_timestamps [5] 2 [3] 500
      = Except.ok ((List.range 2).map
          (fun i : ℕ => 5 + secToNs ((i : ℚ) / 500))) :=
  (C10_align_timestamps_clock_independent [5] 5 2 [3] 500 rfl
    (List.cons_ne_nil 3 [])).1

/-- An internal event as produced by `build_eeg_event_list`: a 0-based
sample latency and a type code. -/
structure EEGEvent where
  latency : Int
  type : String
deriving DecidableEq

/-- One element of the EEGLAB `event` array written at serialization time
(1-based latency, zero duration). -/
structure SetEvent where
  latency : Int
  type : String
  duration : Int
deriving DecidableEq

/-- The `export_event_labels` config of `build_eeg_event_list` (source
lines 906–915): either a mapping exposure → short event code, or (pilot
config) a plain allow-list, in which case the exposure label itself is
the event type. -/
inductive ExportLabels where
  | dict : List (String × String) → ExportLabels
  | list : List String → ExportLabels

/-- The export filtering of `build_eeg_event_list`: `none` means the
label is skipped, `some ty` gives the emitted event type. -/
def exportLookup : ExportLabels → String → Option String
  | .dict m, l => ((m.find? (fun p => p.1 == l)).map (fun p => p.2))
  | .list ls, l => if ls.contains l then some l else none

/-- The inner loop of `build_eeg_event_list` over one label's timestamps
(source lines 920–935): skip out-of-span timestamps when
`ignore_missing` (else fail), and append the rounded sample index
`round((onset - eeg_start) seconds * srate)`. -/
def eventsForTimestamps (eeg_start eeg_end : Int) (srate : ℚ)
    (event_type : String) (ignore_missing : Bool)
    (acc : List EEGEvent) : List Int → Except String (List EEGEvent)
  | [] => .ok acc
  | onset_ts :: rest =>
    if onset_ts < eeg_start ∨ onset_ts > eeg_end then
      if ignore_missing then
        eventsForTimestamps eeg_start eeg_end srate event_type
          ignore_missing acc rest
      else .error "timestamp outside EEG span"
    else
      eventsForTimestamps eeg_start eeg_end srate event_type ignore_missing
        (acc ++ [{ latency := pyRound (((onset_ts - eeg_start : Int) : ℚ)
                      / 1000000000 * srate),
                   type := event_type }]) rest

/-- The outer loop of `build_eeg_event_list` over the event dictionary
(source lines 903–935): skip labels not selected for export, otherwise
process the label's timestamps. -/
def eventsForDict (eeg_start eeg_end : Int) (srate : ℚ)
    (export_event_labels : ExportLabels) (ignore_missing : Bool)
    (acc : List EEGEvent) :
    List (String × List Int) → Except String (List EEGEvent)
  | [] => .ok acc
  | (exposure, tss) :: rest =>
    match exportLookup export_event_labels exposure with
    | none => eventsForDict eeg_start eeg_end srate export_event_labels
        ignore_missing acc rest
    | some event_type =>
      match eventsForTimestamps eeg_start eeg_end srate event_type
          ignore_missing acc tss with
      | .error e => .error e
      | .ok acc2 => eventsForDict eeg_start eeg_end srate
          export_event_labels ignore_missing acc2 rest

/-- Stable insertion, modelling Python's stable `list.sort`. -/
def insertEv (e : EEGEvent) : List EEGEvent → List EEGEvent
  | [] => [e]
  | x :: xs =>
    if x.latency < e.latency then x :: insertEv e xs else e :: x :: xs

/-- `events.sort(key=lambda e: e["latency"])`: stable ascending sort. -/
def sortByLatency : List EEGEvent → List EEGEvent
  | [] => []
  | x :: xs => insertEv x (sortByLatency xs)

/-- Source `build_eeg_event_list` (lines 870–940): convert the per-label
timestamp dictionary into 0-based sample-index events, filtered by the
export config, dropping out-of-span timestamps when `ignore_missing`,
sorted ascending by latency.  Dictionary values are timestamp lists (the
scalar case of the source is the singleton list); timestamps are
`datetime64[ns]` integers. -/
def build_eeg_event_list (eeg_dt_aligned : List Int)
    (event_ts_dict : List (String × List Int)) (srate : ℚ)
    (export_event_labels : ExportLabels) (ignore_missing : Bool := true) :
    Except String (List EEGEvent) :=
  match eeg_dt_aligned.head?, eeg_dt_aligned.getLast? with
  | some eeg_start, some eeg_end =>
    match eventsForDict eeg_start eeg_end srate export_event_labels
        ignore_missing [] event_ts_dict with
    | .error e => .error e
    | .ok events => .ok (sortByLatency events)
  | _, _ => .error "IndexError: empty EEG axis"

/-- Source `add_events_to_eeg_struct` (lines 978–1030), restricted to the
event array it constructs: each 0-based internal latency is shifted by +1
to EEGLAB's 1-based convention at this serialization step, the type is
carried over, the duration is zero. -/
def add_events_to_eeg_struct (events : List EEGEvent) : List SetEvent :=
  events.map (fun ev =>
    { latency := ev.latency + 1, type := ev.type, duration := 0 })

/-- Membership through stable insertion. -/
theorem mem_insertEv (e a : EEGEvent) (l : List EEGEvent) :
    a ∈ insertEv e l ↔ a = e ∨ a ∈ l := by
  induction l with
  | nil => simp [insertEv]
  | cons x xs ih =>
    unfold insertEv
    split_ifs
    · simp only [List.mem_cons, ih]
      tauto
    · simp [List.mem_cons]

/-- Sorting preserves membership. -/
theorem mem_sortByLatency (a : EEGEvent) (l : List EEGEvent) :
    a ∈ sortByLatency l ↔ a ∈ l := by
  induction l with
  | nil => simp [sortByLatency]
  | cons x xs ih => simp [sortByLatency, mem_insertEv, ih]

/-- Every event emitted by the inner timestamp loop is either carried over
from the accumulator or has the rounded latency of one of the processed
timestamps. -/
theorem mem_eventsForTimestamps (eeg_start eeg_end : Int) (srate : ℚ)
    (ty : String) (tss : List Int) (acc res : List EEGEvent)
    (h : eventsForTimestamps eeg_start eeg_end srate ty true acc tss
        = Except.ok res) :
    ∀ ev ∈ res, ev ∈ acc ∨ ∃ ts ∈ tss,
      ev = { latency := pyRound (((ts - eeg_start : Int) : ℚ)
               / 1000000000 * srate),
             type := ty } := by
  induction tss generalizing acc with
  | nil =>
    unfold eventsForTimestamps at h
    injection h with h
    subst h
    exact fun ev hev => Or.inl hev
  | cons t rest ih =>
    unfold eventsForTimestamps at h
    split_ifs at h
    · intro ev hev
      rcases ih acc h ev hev with h1 | ⟨ts, hts, hev2⟩
      · exact Or.inl h1
      · exact Or.inr ⟨ts, List.mem_cons_of_mem t hts, hev2⟩
    · intro ev hev
      rcases ih _ h ev hev with h1 | ⟨ts, hts, hev2⟩
      · rcases List.mem_append.mp h1 with h2 | h2
        · exact Or.inl h2
        · exact Or.inr ⟨t, List.mem_cons_self t rest,
            List.mem_singleton.mp h2⟩
      · exact Or.inr ⟨ts, List.mem_cons_of_mem t hts, hev2⟩

/-- Every event emitted by the dictionary loop is either carried over from
the accumulator or has the rounded latency of some timestamp of some
dictionary entry. -/
theorem mem_eventsForDict (eeg_start eeg_end : Int) (srate : ℚ)
    (export_event_labels : ExportLabels)
    (dict : List (String × List Int)) (acc res : List EEGEvent)
    (h : eventsForDict eeg_start eeg_end srate export_event_labels true
        acc dict = Except.ok res) :
    ∀ ev ∈ res, ev ∈ acc ∨ ∃ exposure tss ts,
      (exposure, tss) ∈ dict ∧ ts ∈ tss ∧
      ev.latency = pyRound (((ts - eeg_start : Int) : ℚ)
        / 1000000000 * srate) := by
  induction dict generalizing acc with
  | nil =>
    unfold eventsForDict at h
    injection h with h
    subst h
    exact fun ev hev => Or.inl hev
  | cons p rest ih =>
    obtain ⟨expo, tss⟩ := p
    unfold eventsForDict at h
    cases hexp : exportLookup export_event_labels expo with
    | none =>
      rw [hexp] at h
      intro ev hev
      rcases ih acc h ev hev with h1 | ⟨e2, t2, ts2, hmem, hts, hlat⟩
      · exact Or.inl h1
      · exact Or.inr ⟨e2, t2, ts2, List.mem_cons_of_mem _ hmem, hts, hlat⟩
    | some ty =>
      rw [hexp] at h
      cases hts : eventsForTimestamps eeg_start eeg_end srate ty true
          acc tss with
      | error e2 =>
        simp [hts] at h
      | ok acc2 =>
        simp only [hts] at h
        intro ev hev
        rcases ih acc2 h ev hev with h1 | ⟨e2, t2, ts2, hmem, hts2, hlat⟩
        · rcases mem_eventsForTimestamps eeg_start eeg_end srate ty tss
            acc acc2 hts ev h1 with h2 | ⟨ts3, hts3, hev3⟩
          · exact Or.inl h2
          · exact Or.inr ⟨expo, tss, ts3, List.mem_cons_self _ _, hts3,
              by rw [hev3]⟩
        · exact Or.inr ⟨e2, t2, ts2, List.mem_cons_of_mem _ hmem,
            hts2, hlat⟩

/-- C9: latencies are 0-based internally and shifted to 1-based exactly
once at serialization: each persisted latency is the internal one plus
exactly 1, and every internal latency emitted by `build_eeg_event_list`
is the bare rounded sample index `round((ts - eeg_start) * srate)` with
no offset. -/
theorem C9_latency_shift_once_at_serialization
    (axis : List Int) (dict : List (String × List Int)) (srate : ℚ)
    (export_event_labels : ExportLabels) (events : List EEGEvent) (s : Int)
    (hs : axis.head? = some s)
    (hb : build_eeg_event_list axis dict srate export_event_labels true
        = Except.ok events) :
    (add_events_to_eeg_struct events).map SetEvent.latency
      = events.map (fun ev => ev.latency + 1)
    ∧ ∀ ev ∈ events, ∃ exposure tss ts,
        (exposure, tss) ∈ dict ∧ ts ∈ tss ∧
        ev.latency = pyRound (((ts - s : Int) : ℚ)
          / 1000000000 * srate) := by
  constructor
  · simp [add_events_to_eeg_struct, List.map_map]
  · intro ev hev
    unfold build_eeg_event_list at hb
    cases axis with
    | nil => simp at hs
    | cons a rest =>
      have ha : a = s := by simpa using hs
      have hgl : (a :: rest).getLast? =
          some ((a :: rest).getLast (by simp)) :=
        List.getLast?_eq_getLast _ (by simp)
      rw [List.head?_cons, hgl] at hb
      cases hed : eventsForDict a ((a :: rest).getLast (by simp)) srate
          export_event_labels true [] dict with
      | error e2 =>
        simp [hed] at hb
      | ok evs =>
        simp only [hed] at hb
        injection hb with hb
        subst hb
        have hev2 := (mem_sortByLatency ev evs).mp hev
        rcases mem_eventsForDict a ((a :: rest).getLast (by simp)) srate
            export_event_labels dict [] evs hed ev hev2
          with h1 | ⟨ex, tss, ts, hmem, hts, hlat⟩
        · simp at h1
        · refine ⟨ex, tss, ts, hmem, hts, ?_⟩
          rw [← ha]
          exact hlat

/-- The concrete internal event list for the C9 witness. -/
def c9evs : List EEGEvent :=
  [{ latency := pyRound ((((1000000 : Int) - 0 : Int) : ℚ)
       / 1000000000 * 500),
     type := "L" }]

/-- Witness for C9: the serialization shift on a concrete converted
event list. -/
theorem C9_latency_shift_once_at_serialization_witness :
    (add_events_to_eeg_struct c9evs).map SetEvent.latency
      = c9evs.map (fun ev => ev.latency + 1) :=
  (C9_latency_shift_once_at_serialization [0, 2000000]
    [("L", [1000000])] 500 (ExportLabels.list ["L"]) c9evs 0 rfl rfl).1

/-- Round-tripping an integer multiple of the sample period through the
nanosecond grid and back to a sample index recovers the index, for any
rate below the nanosecond resolution. -/
theorem pyRound_secToNs_div_mul (m : Nat) (srate : ℚ)
    (hs : 0 < srate) (h9 : srate < 1000000000) :
    pyRound ((secToNs ((m : ℚ) / srate) : ℚ) / 1000000000 * srate) = m := by
  have hsne : srate ≠ 0 := ne_of_gt hs
  have habs : |(secToNs ((m : ℚ) / srate) : ℚ)
      - (m : ℚ) / srate * 1000000000| ≤ 1/2 :=
    abs_pyRound_sub_le ((m : ℚ) / srate * 1000000000)
  apply pyRound_eq_of_abs_lt
  have hxm : (m : ℚ) / srate * srate = m := div_mul_cancel₀ _ hsne
  have hkey : (secToNs ((m : ℚ) / srate) : ℚ) / 1000000000 * srate
        - (m : ℚ)
      = ((secToNs ((m : ℚ) / srate) : ℚ)
          - (m : ℚ) / srate * 1000000000) * (srate / 1000000000) := by
    have hx : ((secToNs ((m : ℚ) / srate) : ℚ)
          - (m : ℚ) / srate * 1000000000) * (srate / 1000000000)
        = (secToNs ((m : ℚ) / srate) : ℚ) / 1000000000 * srate
          - (m : ℚ) / srate * srate := by
      ring
    rw [hx, hxm]
  have hEpos : (0 : ℚ) < srate / 1000000000 := div_pos hs (by norm_num)
  push_cast
  rw [hkey, abs_mul, abs_of_pos hEpos]
  have hlt : srate / 1000000000 < 1 := (div_lt_one (by norm_num)).mpr h9
  calc |(secToNs ((m : ℚ) / srate) : ℚ) - (m : ℚ) / srate * 1000000000|
        * (srate / 1000000000)
      ≤ (1/2) * (srate / 1000000000) :=
        mul_le_mul_of_nonneg_right habs hEpos.le
    _ < 1/2 := by linarith

/-- C8: with the axis produced by the cross-clock mapper, an event
timestamped exactly at the signal's last sample is kept and converted to
latency `n_samples - 1`, while an event one sample period past the end is
dropped — not emitted, no error — when `ignore_missing` is true. -/
theorem C8_event_latency_bounds
    (physio_index : List Int) (eeg_ts : List ℚ) (srate : ℚ) (n : Nat)
    (t0 : Int) (axis : List Int) (export_event_labels : ExportLabels)
    (label ty : String)
    (hn : 0 < n) (hs : 0 < srate) (h9 : srate < 1000000000)
    (hphys : physio_index.head? = some t0) (he : eeg_ts ≠ [])
    (hax : align_timestamps physio_index n eeg_ts srate = Except.ok axis)
    (hexp : exportLookup export_event_labels label = some ty) :
    build_eeg_event_list axis
      [(label, [t0 + secToNs (((n - 1 : Nat) : ℚ) / srate),
                t0 + secToNs (((n - 1 : Nat) : ℚ) / srate)
                  + secToNs (1 / srate)])]
      srate export_event_labels true
    = Except.ok [{ latency := (n : Int) - 1, type := ty }] := by
  obtain ⟨k, rfl⟩ : ∃ k, n = k + 1 :=
    ⟨n - 1, (Nat.succ_pred_eq_of_pos hn).symm⟩
  rw [Nat.add_sub_cancel]
  have haxis : axis = (List.range (k + 1)).map
      (fun i : ℕ => t0 + secToNs ((i : ℚ) / srate)) := by
    have h2 := align_timestamps_ok physio_index t0 (k + 1) eeg_ts srate
      hphys he
    rw [h2] at hax
    injection hax with hax
    exact hax.symm
  have hXnn : 0 ≤ secToNs ((k : ℚ) / srate) :=
    pyRound_nonneg _
      (mul_nonneg (div_nonneg (Nat.cast_nonneg k) hs.le) (by norm_num))
  have hper : 1 ≤ secToNs (1 / srate) := by
    apply one_le_pyRound
    rw [one_div, inv_mul_eq_div]
    exact (one_le_div hs).mpr h9.le
  have hhead : axis.head? = some t0 := by
    rw [haxis, List.range_succ_eq_map]
    simp [secToNs_zero]
  have hlast : axis.getLast? = some (t0 + secToNs ((k : ℚ) / srate)) := by
    rw [haxis, List.range_succ, List.map_append]
    simp
  have hc1 : ¬ (t0 + secToNs ((k : ℚ) / srate) < t0 ∨
      t0 + secToNs ((k : ℚ) / srate) > t0 + secToNs ((k : ℚ) / srate)) := by
    omega
  have hc2 : t0 + secToNs ((k : ℚ) / srate) + secToNs (1 / srate) < t0 ∨
      t0 + secToNs ((k : ℚ) / srate) + secToNs (1 / srate)
        > t0 + secToNs ((k : ℚ) / srate) := by
    omega
  unfold build_eeg_event_list
  rw [hhead, hlast]
  simp only [eventsForDict, hexp, eventsForTimestamps, if_neg hc1,
    if_pos hc2, if_pos rfl, List.nil_append, sortByLatency, insertEv]
  have hsub : (t0 + secToNs ((k : ℚ) / srate) - t0 : Int)
      = secToNs ((k : ℚ) / srate) := by omega
  rw [hsub, pyRound_secToNs_div_mul k srate hs h9]
  have hcast : ((k + 1 : Nat) : Int) - 1 = (k : Int) := by
    push_cast
    ring
  rw [hcast]
  simp [sortByLatency, insertEv]

/-- The aligned axis of the concrete C8 run. -/
def c8axis : List Int :=
  (List.range 2).map (fun i : ℕ => (0 : Int) + secToNs ((i : ℚ) / 500))

/-- Witness for C8: two samples at 500 Hz; the event at the last sample is
kept with latency 1 and the event one period past the end is dropped. -/
theorem C8_event_latency_bounds_witness :
    build_eeg_event_list c8axis
      [("L", [(0 : Int) + secToNs (((2 - 1 : Nat) : ℚ) / 500),
              (0 : Int) + secToNs (((2 - 1 : Nat) : ℚ) / 500)
                + secToNs (1 / 500)])]
      500 (ExportLabels.list ["L"]) true
    = Except.ok [{ latency := (2 : Int) - 1, type := "L" }] :=
  C8_event_latency_bounds [0] [0] 500 2 0 c8axis
    (ExportLabels.list ["L"]) "L" "L"
    (by norm_num) (by norm_num) (by norm_num) rfl
    (List.cons_ne_nil 0 [])
    (align_timestamps_ok [0] 0 2 [0] 500 rfl (List.cons_ne_nil 0 []))
    rfl

/-- One row of the physio metadata log as read by
`extract_response_timestamps`: the datetime index value (nanoseconds), the
latched `Response` outcome (NaN ↦ `none`), the `Response_Time` value after
`pd.to_numeric(..., errors="coerce")` (non-numeric ↦ `none`), and the two
possible task-block key columns. -/
structure PhysioRow where
  ts : Int
  response : Option String
  response_time : Option ℚ
  arithmetic_task : Option String
  task_state : Option String

/-- The metadata log for `extract_response_timestamps`: rows plus
column-presence flags for the columns the source probes with `issubset`
and `in df.columns`. -/
structure PhysioDF where
  rows : List PhysioRow
  hasResponse : Bool
  hasResponseTime : Bool
  hasArithmeticTask : Bool
  hasTaskState : Bool

/-- The reset mask of `extract_response_timestamps` at row `i` (source
lines 823–829): `Response_Time` and its previous value are both numeric,
the value strictly decreased, and the latched `Response` is non-null at
that row.  Row 0 has no predecessor (`shift()` yields NaN there). -/
def resetAt (rows : List PhysioRow) : Nat → Bool
  | 0 => false
  | j + 1 =>
    match rows.get? (j + 1), rows.get? j with
    | some r, some p =>
      (match r.response_time, p.response_time with
       | some a, some b => decide (a < b)
       | _, _ => false) && r.response.isSome
    | _, _ => false

/-- The row indices flagged by the reset mask. -/
def resetIndices (rows : List PhysioRow) : List Nat :=
  (List.range rows.length).filter (resetAt rows)

/-- pandas `Series.ffill`: forward-fill missing values. -/
def ffillAux (last : Option String) :
    List (Option String) → List (Option String)
  | [] => []
  | some v :: xs => some v :: ffillAux (some v) xs
  | none :: xs => last :: ffillAux last xs

/-- `groupby("_task", sort=False).head(1)` over the rows with a non-null
response and non-null task key (source lines 841–848): the index of the
first qualifying row of each distinct task value, in row order. -/
def firstPerTaskAux (i : Nat) (seen : List String) :
    List (PhysioRow × Option String) → List Nat
  | [] => []
  | (r, key) :: rest =>
    match key, r.response with
    | some kv, some _ =>
      if seen.contains kv then firstPerTaskAux (i + 1) seen rest
      else i :: firstPerTaskAux (i + 1) (kv :: seen) rest
    | _, _ => firstPerTaskAux (i + 1) seen rest

/-- Timestamp of the row at a given position. -/
def tsAt (rows : List PhysioRow) (i : Nat) : Int :=
  ((rows.get? i).map PhysioRow.ts).getD 0

/-- Sorted insertion of a row index by its timestamp. -/
def insertPosByTs (rows : List PhysioRow) (i : Nat) :
    List Nat → List Nat
  | [] => [i]
  | j :: js =>
    if tsAt rows j < tsAt rows i then j :: insertPosByTs rows i js
    else i :: j :: js

/-- `candidate_idx.sort_values()`: sort candidate row positions by their
timestamps. -/
def sortPosByTs (rows : List PhysioRow) : List Nat → List Nat
  | [] => []
  | i :: rest => insertPosByTs rows i (sortPosByTs rows rest)

/-- Drop subsequent positions sharing the previous timestamp. -/
def dedupByTsAux (rows : List PhysioRow) (prev : Int) :
    List Nat → List Nat
  | [] => []
  | j :: rest =>
    if tsAt rows j == prev then dedupByTsAux rows prev rest
    else j :: dedupByTsAux rows (tsAt rows j) rest

/-- The de-duplication `pd.Index.union` performs on the sorted candidate
timestamps: collapse adjacent positions with equal timestamps. -/
def dedupByTs (rows : List PhysioRow) : List Nat → List Nat
  | [] => []
  | i :: rest => i :: dedupByTsAux rows (tsAt rows i) rest

/-- `response_ts_dict.setdefault(label, []).append(ts)` on an
insertion-ordered dictionary. -/
def addToDict (d : List (String × List Int)) (label : String) (ts : Int) :
    List (String × List Int) :=
  match d with
  | [] => [(label, [ts])]
  | (l, tss) :: rest =>
    if l == label then (l, tss ++ [ts]) :: rest
    else (l, tss) :: addToDict rest label ts

/-- Source `extract_response_timestamps` (lines 794–866): emit a reset
event wherever `Response_Time` strictly decreases with a non-null latched
`Response`; additionally emit the first non-null response of each task
block (key `Arithmetic_Task` if present, else `Task_State`, forward
filled), or — with no task column — the first non-null response overall.
Candidates are sorted by timestamp, de-duplicated, and grouped into an
insertion-ordered `Response_<outcome> → timestamps` dictionary.

The source's datetime-index requirement is the integer timestamp field
here; the `.loc[ts]` lookups are positional, which is faithful for the
strictly increasing indices the source's timestamp de-duplication
presumes. -/
def extract_response_timestamps (df : PhysioDF) :
    List (String × List Int) :=
  if !(df.hasResponse && df.hasResponseTime) then []
  else
    let rows := df.rows
    let reset := resetIndices rows
    let taskKey : Option (List (Option String)) :=
      if df.hasArithmeticTask then
        some (ffillAux none (rows.map PhysioRow.arithmetic_task))
      else if df.hasTaskState then
        some (ffillAux none (rows.map PhysioRow.task_state))
      else none
    let candidates :=
      match taskKey with
      | some key => reset ++ firstPerTaskAux 0 [] (rows.zip key)
      | none =>
        match rows.findIdx? (fun r => r.response.isSome) with
        | some i0 => reset ++ [i0]
        | none => reset
    let ordered := dedupByTs rows (sortPosByTs rows candidates)
    ordered.foldl (fun d i =>
      match rows.get? i with
      | some r =>
        match r.response with
        | some v => addToDict d ("Response_" ++ v) r.ts
        | none => d
      | none => d) []

/-- One row of the C2 countdown scenario. -/
def c2row (i : Nat) (rt : ℚ) : PhysioRow :=
  { ts := (i : Int), response := some "C", response_time := some rt,
    arithmetic_task := some "T1", task_state := none }

/-- The C2 scenario: `Response_Time` is `[5,4,3,1,9,8,7]`, the latched
outcome is non-null at every row, one task block starting at row 0. -/
def c2df : PhysioDF :=
  { rows := [c2row 0 5, c2row 1 4, c2row 2 3, c2row 3 1,
             c2row 4 9, c2row 5 8, c2row 6 7],
    hasResponse := true, hasResponseTime := true,
    hasArithmeticTask := true, hasTaskState := false }

/-- Counterexample for C2: the detector fires on every strict decrease of
the countdown, so `[5,4,3,1,9,8,7]` produces reset events at indices
1, 2, 3, 5 and 6 — not exactly one reset at index 3. -/
theorem C2_reset_indices_counterexample :
    resetIndices c2df.rows = [1, 2, 3, 5, 6] ∧
    resetIndices c2df.rows ≠ [3] := by
  constructor
  · decide
  · decide

/-- C2 (amended): on the countdown `[5,4,3,1,9,8,7]` with a non-null
latched outcome everywhere, the detector emits a reset event at every
index whose value strictly decreased from its predecessor — indices
1, 2, 3, 5, 6 — plus the first-response event at index 0 (the start of
the task block), yielding events at rows 0, 1, 2, 3, 5 and 6. -/
theorem C2_response_transitions_amended :
    extract_response_timestamps c2df
      = [("Response_C", [0, 1, 2, 3, 5, 6])] := by
  decide

end XdfToSet
